import Mathlib

/-!
# AirQuality: rolling history, plot scaling, sensor sessions, quality verdict

A shallow embedding of `Display.h`, `DataUtils.h`, `CO2Sensor.h`, `SPSSensor.h`
and `VOCSensor.h`, followed by the properties proved about it.

Conventions of the embedding:
* an `int` value is an `Int`; the `int` arithmetic of `plot2d` is wrapped to
  the `ib` bits of `int` in two's complement (`wrapInt`), which is what the
  targets compute when a signed operation overflows; `size_t` arithmetic that
  can wrap is written with an explicit `% 2 ^ w`, `w` being the width of
  `size_t`. `DataBuffer` only copies and compares its `int` values.
* `double` expressions of `plot2d` are evaluated in exact rational arithmetic;
  a quotient has its C meaning only for a divisor that is not zero.
* a C array / pointer is a function from the index to the cell content.
* the vendor drivers are oracles: a driver state holds the recorded calls and
  the answers the hardware gives.
-/

namespace AirQuality

/-! ## Display.h : constants -/

def DISPLAY_HEIGHT : Nat := 176
def DISPLAY_WIDTH : Nat := 264
def GRID_DX : Nat := DISPLAY_WIDTH / 3
def GRID_DY : Nat := DISPLAY_HEIGHT / 3
def LINE_HEIGHT : Nat := GRID_DY / 2
def Y_OFFSET : Nat := 15
def BUFFERSIZE : Nat := GRID_DX

def INT16_MIN : Int := -32768
def INT16_MAX : Int := 32767

/-- The loop `for (int i = lo; i < hi; i++) body(i)` run on the state `s`. -/
def forLoop {σ : Type} (lo hi : Nat) (body : Nat → σ → σ) (s : σ) : σ :=
  (List.range' lo (hi - lo)).foldl (fun acc i => body i acc) s

/-- The value an `int` of `ib` bits holds after an operation whose exact
result is `x`: `x` reduced to the range `-2^(ib-1) .. 2^(ib-1) - 1`. -/
def wrapInt (ib : Nat) (x : Int) : Int :=
  (x + 2 ^ (ib - 1)) % 2 ^ ib - 2 ^ (ib - 1)

/-- The assignment `a[i] = v` on an array (no cell is written when `i` is
outside the array). -/
def store (a : List Int) (i : Nat) (v : Int) : List Int :=
  a.set i v

/-- The expression `a[i]` on an array (0 stands for what a read outside the
array yields). -/
def load (a : List Int) (i : Nat) : Int :=
  a.getD i 0

/-! ## Display.h : DataBuffer -/

/-- Source `struct DataBuffer`: `int m_Buffer[BUFFERSIZE]; size_t m_Size{0};`. -/
structure DataBuffer where
  m_Buffer : List Int
  m_Size : Nat

namespace DataBuffer

/-- A freshly constructed buffer: `m_Size` is 0 and the `BUFFERSIZE` cells hold
whatever the memory holds (`m_Buffer` has no initialiser). -/
def fresh (memory : Nat → Int) : DataBuffer :=
  { m_Buffer := (List.range BUFFERSIZE).map memory, m_Size := 0 }

/-- Source `DataBuffer::append`. -/
def append (b : DataBuffer) (data : Int) : DataBuffer :=
  if b.m_Size < BUFFERSIZE then
    { m_Buffer := store b.m_Buffer b.m_Size data, m_Size := b.m_Size + 1 }
  else
    let shifted :=
      forLoop 1 BUFFERSIZE (fun i buf => store buf (i - 1) (load buf i)) b.m_Buffer
    { m_Buffer := store shifted (BUFFERSIZE - 1) data, m_Size := b.m_Size }

/-- Source `DataBuffer::getSize`. -/
def getSize (b : DataBuffer) : Nat := b.m_Size

/-- Source `DataBuffer::getData`: the pointer to the first cell, `getData b i` being
what `getData()[i]` reads. -/
def getData (b : DataBuffer) : Nat → Int := load b.m_Buffer

/-- Source `DataBuffer::getBoundaries`: the pair `(vmin, vmax)` written through the
two reference parameters. -/
def getBoundaries (b : DataBuffer) : Int × Int :=
  if b.m_Size = 0 then
    (INT16_MIN, INT16_MAX)
  else
    forLoop 1 b.m_Size
      (fun i (p : Int × Int) =>
        let vmin := if load b.m_Buffer i < p.1 then load b.m_Buffer i else p.1
        let vmax := if load b.m_Buffer i > p.2 then load b.m_Buffer i else p.2
        (vmin, vmax))
      (load b.m_Buffer 0, load b.m_Buffer 0)

/-- The stored samples, slots `0 .. getSize - 1` of `getData`, oldest first. -/
def samples (b : DataBuffer) : List Int :=
  (List.range b.getSize).map b.getData

end DataBuffer

/-! ## Sensor readings -/

/-- A value of the C type `float` (or `double`): a finite number, an infinity
or a NaN. Only comparisons and copies of such values are embedded. -/
inductive FloatVal
  | fin (q : ℚ)
  | posInf
  | negInf
  | nan
  deriving DecidableEq

namespace FloatVal

/-- The literal `0.f`. -/
def zero : FloatVal := fin 0

/-- Conversion of an integer constant to floating point. -/
def ofInt (n : Int) : FloatVal := fin n

/-- The comparison `a > b` of two floating-point values: false as soon as one
side is a NaN. -/
def gt : FloatVal → FloatVal → Bool
  | nan, _ => false
  | _, nan => false
  | fin a, fin b => decide (b < a)
  | posInf, posInf => false
  | posInf, _ => true
  | negInf, _ => false
  | fin _, posInf => false
  | fin _, negInf => true

end FloatVal

/-- Source `struct CO2Data` with its default member initialisers. -/
structure CO2Data where
  co2 : Nat := 0
  temperature : FloatVal := FloatVal.zero
  humidity : FloatVal := FloatVal.zero
  valid : Bool := false
  deriving DecidableEq

/-- Source `struct SPSData` with its default member initialisers. -/
structure SPSData where
  pm1 : FloatVal := FloatVal.zero
  pm25 : FloatVal := FloatVal.zero
  pm4 : FloatVal := FloatVal.zero
  pm10 : FloatVal := FloatVal.zero
  valid : Bool := false
  deriving DecidableEq

/-- Source `struct VOCData` with its default member initialisers. -/
structure VOCData where
  tvoc : Nat := 0
  tvoc_baseline : Nat := 0
  eco2 : Nat := 0
  eco2_baseline : Nat := 0
  valid : Bool := false
  deriving DecidableEq

/-! ## DataUtils.h -/

inductive AirQualityLevel
  | Good
  | Bad
  deriving DecidableEq

/-- Source `JudgeQuality`: `co2.co2 > 1000 || co2.humidity > 60`. -/
def JudgeQuality (_voc : VOCData) (co2 : CO2Data) (_sps : SPSData) :
    AirQualityLevel :=
  if co2.co2 > 1000 || FloatVal.gt co2.humidity (FloatVal.ofInt 60) then
    AirQualityLevel.Bad
  else
    AirQualityLevel.Good

/-! ## CO2Sensor.h -/

/-- Source `CO2Sensor::MeasureMode`. -/
inductive MeasureMode
  | SingleShot
  | LowPowerPeriodic
  | NormalPeriodic
  deriving DecidableEq

/-- Source `CO2Sensor::EnvironmentSettings`. -/
structure EnvironmentSettings where
  altitude : Nat
  temperature_offset : FloatVal
  deriving DecidableEq

/-- The calls `CO2Sensor` makes on its `SensirionI2CScd4x` driver. -/
inductive Scd4xCall
  | begin
  | measureSingleShot
  | getDataReadyFlag
  | readMeasurement
  | setSensorAltitude (altitude : Nat)
  | setTemperatureOffset (offset : FloatVal)
  | startLowPowerPeriodicMeasurement
  | startPeriodicMeasurement
  | stopPeriodicMeasurement
  | powerDown
  | wakeUp
  deriving DecidableEq

/-- What one `getDataReadyFlag(has_data)` call leaves behind: the returned
error code and the content of `has_data` after the call (`false`, its initial
value, when the driver did not write it). -/
structure ReadyAnswer where
  error : Nat
  has_data : Bool

/-- What one `readMeasurement(co2, temperature, humidity)` call leaves behind:
the returned error code and the content of the three output variables after the
call (their initial value 0 when the driver did not write them). -/
structure MeasurementAnswer where
  error : Nat
  co2 : Nat
  temperature : FloatVal
  humidity : FloatVal

/-- The vendor driver `SensirionI2CScd4x`, an external collaborator: it
records the calls made on it and answers the two reading calls from two
streams, one answer per call, so that every behaviour of the hardware is
covered. -/
structure SensirionI2CScd4x where
  calls : List Scd4xCall
  ready : Nat → ReadyAnswer
  measurement : Nat → MeasurementAnswer

namespace SensirionI2CScd4x

/-- A driver call without an output that the sensor class looks at. -/
def call (d : SensirionI2CScd4x) (c : Scd4xCall) : SensirionI2CScd4x :=
  { d with calls := d.calls ++ [c] }

def getDataReadyFlag (d : SensirionI2CScd4x) : ReadyAnswer × SensirionI2CScd4x :=
  (d.ready 0,
   { d with calls := d.calls ++ [Scd4xCall.getDataReadyFlag],
            ready := fun k => d.ready (k + 1) })

def readMeasurement (d : SensirionI2CScd4x) :
    MeasurementAnswer × SensirionI2CScd4x :=
  (d.measurement 0,
   { d with calls := d.calls ++ [Scd4xCall.readMeasurement],
            measurement := fun k => d.measurement (k + 1) })

end SensirionI2CScd4x

/-- Source `class CO2Sensor`; `waited` is the time in ms spent in `delay`. -/
structure CO2Sensor where
  m_Sensor : SensirionI2CScd4x
  m_MeasureMode : MeasureMode
  m_Settings : EnvironmentSettings
  waited : Nat

namespace CO2Sensor

/-- The statement `m_Sensor.c(...)` for a driver call whose result is not
looked at. -/
def driver (s : CO2Sensor) (c : Scd4xCall) : CO2Sensor :=
  { s with m_Sensor := s.m_Sensor.call c }

/-- The statement `delay(ms)`. -/
def delay (s : CO2Sensor) (ms : Nat) : CO2Sensor :=
  { s with waited := s.waited + ms }

/-- Source `CO2Sensor::StopMeasurement`. -/
def StopMeasurement (s : CO2Sensor) : CO2Sensor :=
  s.driver Scd4xCall.stopPeriodicMeasurement

/-- Source `CO2Sensor::StartMeasurement`. -/
def StartMeasurement (s : CO2Sensor) : CO2Sensor :=
  let s := s.delay 1000
  let s := s.driver Scd4xCall.begin
  let s := s.StopMeasurement
  let s := s.driver (Scd4xCall.setSensorAltitude s.m_Settings.altitude)
  let s := s.driver (Scd4xCall.setTemperatureOffset s.m_Settings.temperature_offset)
  if s.m_MeasureMode = MeasureMode.SingleShot then
    s
  else if s.m_MeasureMode = MeasureMode.LowPowerPeriodic then
    s.driver Scd4xCall.startLowPowerPeriodicMeasurement
  else
    s.driver Scd4xCall.startPeriodicMeasurement

/-- Source `CO2Sensor::onSleep`. -/
def onSleep (s : CO2Sensor) : CO2Sensor :=
  let s := s.StopMeasurement
  s.driver Scd4xCall.powerDown

/-- Source `CO2Sensor::onResume`. -/
def onResume (s : CO2Sensor) : CO2Sensor :=
  let s := s.driver Scd4xCall.wakeUp
  s.StartMeasurement

/-- Source `CO2Sensor::GetMeasurement`: the returned `CO2Data` and the sensor
afterwards. -/
def GetMeasurement (s : CO2Sensor) : CO2Data × CO2Sensor :=
  let s :=
    if s.m_MeasureMode = MeasureMode.SingleShot then
      (s.driver Scd4xCall.measureSingleShot).delay 500
    else s
  let r := s.m_Sensor.getDataReadyFlag
  let s := { s with m_Sensor := r.2 }
  if r.1.error ≠ 0 then
    ({}, s)
  else if !r.1.has_data then
    ({}, s)
  else
    let m := s.m_Sensor.readMeasurement
    let s := { s with m_Sensor := m.2 }
    let data : CO2Data :=
      { co2 := m.1.co2, temperature := m.1.temperature, humidity := m.1.humidity }
    if m.1.error = 0 ∧ data.co2 ≠ 0 then
      ({ data with valid := true }, s)
    else
      (data, s)

end CO2Sensor

/-! ## SPSSensor.h -/

/-- The content of `struct sps30_measurement` that `SPSData` copies. -/
structure sps30_measurement where
  mc_1p0 : FloatVal
  mc_2p5 : FloatVal
  mc_4p0 : FloatVal
  mc_10p0 : FloatVal

/-- The vendor functions `sps30_read_data_ready` and `sps30_read_measurement`,
external collaborators: each call is answered from a stream with its return
code and the content of its output variable after the call. -/
structure Sps30 where
  ready : Nat → Int × Nat
  measurement : Nat → Int × sps30_measurement

/-- Source `SPSSensor::GetMeasurement`: the returned `SPSData` and the driver
afterwards. -/
def SPSSensor.GetMeasurement (d : Sps30) : SPSData × Sps30 :=
  let r := d.ready 0
  let d := { d with ready := fun k => d.ready (k + 1) }
  if r.1 < 0 then
    ({}, d)
  else if r.2 = 0 then
    ({}, d)
  else
    let m := d.measurement 0
    let d := { d with measurement := fun k => d.measurement (k + 1) }
    if m.1 < 0 then
      ({}, d)
    else
      ({ pm1 := m.2.mc_1p0, pm25 := m.2.mc_2p5, pm4 := m.2.mc_4p0,
         pm10 := m.2.mc_10p0, valid := true }, d)

/-! ## VOCSensor.h -/

/-- The vendor driver `Adafruit_SGP30`, an external collaborator: `IAQmeasure`
is answered with its result and the members `TVOC` and `eCO2` after the call,
`getIAQBaseline` with its result and the content of its two output variables
after the call (0, their initial value, when it did not write them). -/
structure Adafruit_SGP30 where
  TVOC : Nat
  eCO2 : Nat
  iaq : Nat → Bool × Nat × Nat
  baseline : Nat → Bool × Nat × Nat

/-- Source `VOCSensor::GetMeasurement`: the returned `VOCData` and the driver
afterwards. -/
def VOCSensor.GetMeasurement (d : Adafruit_SGP30) : VOCData × Adafruit_SGP30 :=
  let a := d.iaq 0
  let d := { d with TVOC := a.2.1, eCO2 := a.2.2, iaq := fun k => d.iaq (k + 1) }
  if !a.1 then
    ({}, d)
  else
    let b := d.baseline 0
    let d := { d with baseline := fun k => d.baseline (k + 1) }
    let data : VOCData := { eco2_baseline := b.2.1, tvoc_baseline := b.2.2 }
    if !b.1 then
      (data, d)
    else
      ({ data with tvoc := d.TVOC, eco2 := d.eCO2, valid := true }, d)

/-! ## Display.h : Display -/

inductive Font
  | FreeSans9pt7b
  | FreeSansBoldOblique9pt7b
  | nullptr
  deriving DecidableEq

inductive Color
  | EPD_BLACK
  | EPD_WHITE
  deriving DecidableEq

/-- The calls `Display` makes on its `Adafruit_IL91874` panel. A coordinate is
recorded as the exact value of the argument expression, before the conversion
to the integer parameter type of the graphics library. -/
inductive GfxCall
  | clearBuffer
  | fillScreen (color : Color)
  | display (sleep : Bool)
  | setFont (font : Font)
  | setCursor (x y : ℚ)
  | printText (text : String)
  | printInt (value : Int)
  | drawRect (x y w h : ℚ) (color : Color)
  | drawLine (x0 y0 x1 y1 : ℚ) (color : Color)
  | drawFastHLine (x y w : ℚ) (color : Color)
  deriving DecidableEq

/-- The line segments `(x0, y0, x1, y1)` of the `drawLine` calls of a call
sequence, in the order of the calls. -/
def segments (calls : List GfxCall) : List (ℚ × ℚ × ℚ × ℚ) :=
  calls.filterMap fun c =>
    match c with
    | GfxCall.drawLine x0 y0 x1 y1 _ => some (x0, y0, x1, y1)
    | _ => none

/-- The divisor of `dy` in `plot2d`: the `int` value of `y_max - y_min`. -/
def dyDivisor (ib : Nat) (y_min y_max : Int) : Int :=
  wrapInt ib (y_max - y_min)

/-- Source `Display::plot2d`, for a `size_t` of `w` bits and an `int` of `ib`
bits. `origin_x`, `origin_y` is the cursor that `getCursorX`, `getCursorY`
return; the result is the sequence of calls made on the panel. -/
def plot2d (w ib : Nat) (origin_x origin_y : Int) (values : Nat → Int) (count : Nat)
    (y_min y_max : Int) (x_span y_span : Nat) : List GfxCall :=
  if count = 1 then
    []
  else
    let margin_top : ℚ := 6
    let margin_right : ℚ := 20
    let margin_bottom : ℚ := 6
    let font_offset : ℚ := -3
    let legend_padding : ℚ := 3
    let plot_width : ℚ := ((x_span * GRID_DX % 2 ^ w : Nat) : ℚ) - margin_right
    let plot_height : ℚ :=
      ((y_span * GRID_DY % 2 ^ w : Nat) : ℚ) - margin_top - margin_bottom
    let dy : ℚ := plot_height / ((dyDivisor ib y_min y_max : Int) : ℚ)
    let dx : ℚ := plot_width / (((count + 2 ^ w - 1) % 2 ^ w : Nat) : ℚ)
    let lines : List GfxCall :=
      forLoop 0 ((count + 2 ^ w - 1) % 2 ^ w)
        (fun i calls =>
          let x_coord_start : ℚ := (i : ℚ) * dx
          let y_coord_start : ℚ :=
            plot_height - (((wrapInt ib (values i - y_min) : Int) : ℚ) * dy)
          let x_coord_end : ℚ := ((i + 1 : Nat) : ℚ) * dx
          let y_coord_end : ℚ :=
            plot_height - (((wrapInt ib (values (i + 1) - y_min) : Int) : ℚ) * dy)
          calls ++ [GfxCall.drawLine (origin_x + x_coord_start)
            (origin_y + y_coord_start + margin_top) (origin_x + x_coord_end)
            (origin_y + y_coord_end + margin_top) Color.EPD_BLACK])
        []
    [GfxCall.setFont Font.nullptr] ++ lines ++
    [GfxCall.drawFastHLine origin_x (origin_y + margin_top) plot_width Color.EPD_BLACK,
     GfxCall.setCursor (origin_x + plot_width + legend_padding)
       (origin_y + margin_top + font_offset),
     GfxCall.printInt y_max,
     GfxCall.setCursor (origin_x + plot_width + legend_padding)
       (origin_y + margin_top + plot_height / 2 + font_offset),
     GfxCall.printInt (wrapInt ib (Int.tdiv (dyDivisor ib y_min y_max) 2 + y_min)),
     GfxCall.drawFastHLine origin_x (origin_y + margin_top + plot_height) plot_width
       Color.EPD_BLACK,
     GfxCall.setCursor (origin_x + plot_width + legend_padding)
       (origin_y + margin_top + plot_height + font_offset),
     GfxCall.printInt y_min]

/-- The range `(t_min, t_max)` that `Display::drawPlotCells` computes from the
history and the caller's `v_min`, `v_max` and passes to `plot2d`. -/
def plotRange (history : DataBuffer) (v_min v_max : Int) : Int × Int :=
  let b := history.getBoundaries
  (min v_min b.1, max v_max b.2)

/-- Source `Display::drawPlotCells`, with the cursor `original_cursor_x`,
`original_cursor_y` at entry. -/
def drawPlotCells (w ib : Nat) (original_cursor_x original_cursor_y : Int)
    (title unit current_value : String) (history : DataBuffer)
    (v_min v_max : Int) : List GfxCall :=
  let t := plotRange history v_min v_max
  [GfxCall.setFont Font.FreeSansBoldOblique9pt7b,
   GfxCall.setCursor (original_cursor_x + 4) (original_cursor_y + 4),
   GfxCall.printText title,
   GfxCall.setFont Font.FreeSans9pt7b,
   GfxCall.setCursor (original_cursor_x + 10) (original_cursor_y + LINE_HEIGHT),
   GfxCall.printText current_value,
   GfxCall.setFont Font.nullptr,
   GfxCall.setCursor (original_cursor_x + 55) (original_cursor_y + LINE_HEIGHT),
   GfxCall.printText unit,
   GfxCall.setCursor (original_cursor_x + 1 * GRID_DX - 15) (original_cursor_y - 15)] ++
  plot2d w ib (original_cursor_x + 1 * GRID_DX - 15) (original_cursor_y - 15)
    history.getData history.getSize t.1 t.2 1 1 ++
  [GfxCall.drawRect original_cursor_x (original_cursor_y - Y_OFFSET) (2 * GRID_DX)
     GRID_DY Color.EPD_BLACK]

/-- The relation between a buffer and the values appended to it so far. -/
def DataBuffer.Holds (b : DataBuffer) (vs : List Int) : Prop :=
  b.m_Buffer.length = BUFFERSIZE ∧ b.m_Size = min vs.length BUFFERSIZE ∧
  b.samples = vs.drop (vs.length - BUFFERSIZE)

/-- Segment `i` of `plot2d`, computed as the loop body computes it from the
local variables of `plot2d`. -/
def loopSegment (w ib : Nat) (origin_x origin_y : Int) (values : Nat → Int)
    (count : Nat) (y_min y_max : Int) (x_span y_span : Nat) (i : Nat) : ℚ × ℚ × ℚ × ℚ :=
  let plot_width : ℚ := ((x_span * GRID_DX % 2 ^ w : Nat) : ℚ) - 20
  let plot_height : ℚ := ((y_span * GRID_DY % 2 ^ w : Nat) : ℚ) - 6 - 6
  let dy : ℚ := plot_height / ((dyDivisor ib y_min y_max : Int) : ℚ)
  let dx : ℚ := plot_width / (((count + 2 ^ w - 1) % 2 ^ w : Nat) : ℚ)
  (origin_x + (i : ℚ) * dx,
   origin_y + (plot_height - (((wrapInt ib (values i - y_min) : Int) : ℚ) * dy)) + 6,
   origin_x + ((i + 1 : Nat) : ℚ) * dx,
   origin_y + (plot_height - (((wrapInt ib (values (i + 1) - y_min) : Int) : ℚ) * dy)) + 6)

/-- The vertical coordinate the specification gives to a sample `v`:
`H - (v - y_min) * dy` with `dy = H / (y_max - y_min)`. -/
def specY (H : ℚ) (y_min y_max v : Int) : ℚ :=
  H - ((v : ℚ) - (y_min : ℚ)) * (H / ((y_max : ℚ) - (y_min : ℚ)))

/-- Segment `i` as the specification states it, relative to the origin and the
top margin: from `(i * dx, H - (values[i] - y_min) * dy)` to
`((i + 1) * dx, H - (values[i+1] - y_min) * dy)` with `dx = W / (count - 1)`
and `dy = H / (y_max - y_min)`. -/
def specSegment (W H : ℚ) (values : Nat → Int) (count : Nat) (y_min y_max : Int)
    (i : Nat) : ℚ × ℚ × ℚ × ℚ :=
  ((i : ℚ) * (W / ((count : ℚ) - 1)), specY H y_min y_max (values i),
   ((i : ℚ) + 1) * (W / ((count : ℚ) - 1)), specY H y_min y_max (values (i + 1)))

/-- A segment moved by the origin `(origin_x, origin_y)` and the top margin 6. -/
def placed (origin_x origin_y : Int) (s : ℚ × ℚ × ℚ × ℚ) : ℚ × ℚ × ℚ × ℚ :=
  (origin_x + s.1, origin_y + s.2.1 + 6, origin_x + s.2.2.1, origin_y + s.2.2.2 + 6)

/-- A sensor in `SingleShot` mode whose driver reports not ready twice and then
ready with the reading (co2 = 450, temperature = 21.3, humidity = 45.0). -/
def scenarioSensor : CO2Sensor :=
  { m_Sensor :=
      { calls := [],
        ready := fun k => if k < 2 then ⟨0, false⟩ else ⟨0, true⟩,
        measurement := fun _ => ⟨0, 450, FloatVal.fin (213 / 10), FloatVal.fin 45⟩ },
    m_MeasureMode := MeasureMode.SingleShot,
    m_Settings := { altitude := 0, temperature_offset := FloatVal.zero },
    waited := 0 }

/-- A sensor whose driver reports ready and then reads co2 = 0 together with a
temperature of 21.3 and a humidity of 45.0, without an error. -/
def zeroCo2Sensor : CO2Sensor :=
  { m_Sensor :=
      { calls := [],
        ready := fun _ => ⟨0, true⟩,
        measurement := fun _ => ⟨0, 0, FloatVal.fin (213 / 10), FloatVal.fin 45⟩ },
    m_MeasureMode := MeasureMode.NormalPeriodic,
    m_Settings := { altitude := 0, temperature_offset := FloatVal.zero },
    waited := 0 }

/-! ## Lemmas on loops and arrays -/

theorem forLoop_empty {σ : Type} (lo hi : Nat) (body : Nat → σ → σ) (s : σ)
    (h : hi ≤ lo) : forLoop lo hi body s = s := by
  unfold forLoop
  have : hi - lo = 0 := by omega
  simp [this]

theorem forLoop_succ {σ : Type} (lo hi : Nat) (body : Nat → σ → σ) (s : σ)
    (h : lo ≤ hi) :
    forLoop lo (hi + 1) body s = body hi (forLoop lo hi body s) := by
  unfold forLoop
  have e : hi + 1 - lo = (hi - lo) + 1 := by omega
  rw [e, List.range'_concat, List.foldl_append]
  have e2 : lo + (hi - lo) = hi := by omega
  simp [e2]

theorem length_store (a : List Int) (i : Nat) (v : Int) :
    (store a i v).length = a.length := by
  simp [store]

theorem load_store (a : List Int) (i j : Nat) (v : Int) :
    load (store a i v) j = if j = i ∧ i < a.length then v else load a j := by
  unfold load store
  rw [List.getD_eq_getElem?_getD, List.getD_eq_getElem?_getD, List.getElem?_set]
  by_cases h : i = j
  · subst h
    by_cases hl : i < a.length
    · simp [hl]
    · have : a[i]? = none := by simp; omega
      simp [hl, this]
  · have h2 : ¬ j = i := fun e => h e.symm
    simp [h, h2]

/-- State of the array after the shift loop has run for `i = 1 .. k`. -/
theorem shift_loop_spec (a : List Int) (k : Nat) (hk : k < a.length) :
    (forLoop 1 (k + 1) (fun i buf => store buf (i - 1) (load buf i)) a).length = a.length ∧
    ∀ j, load (forLoop 1 (k + 1) (fun i buf => store buf (i - 1) (load buf i)) a) j
      = if j < k then load a (j + 1) else load a j := by
  induction k with
  | zero =>
    rw [forLoop_empty 1 1 _ a (le_refl 1)]
    simp
  | succ n ih =>
    have ih2 := ih (by omega)
    rw [forLoop_succ 1 (n + 1) _ a (by omega)]
    refine ⟨by rw [length_store]; exact ih2.1, ?_⟩
    intro j
    rw [load_store, ih2.1, ih2.2, ih2.2]
    by_cases hj : j = n
    · subst hj
      have hlen : j < a.length := by omega
      simp [hlen]
    · have h1 : ¬ (j = n + 1 - 1 ∧ n + 1 - 1 < a.length) := by
        intro h
        exact hj (by omega)
      rw [if_neg h1]
      by_cases hlt : j < n
      · simp [hlt, Nat.lt_succ_of_lt hlt]
      · have : ¬ j < n + 1 := by omega
        simp [hlt, this]

/-! ## DataBuffer: FIFO law -/

theorem samples_getElem? (b : DataBuffer) (i : Nat) :
    b.samples[i]? = if i < b.m_Size then some (load b.m_Buffer i) else none := by
  unfold DataBuffer.samples DataBuffer.getSize DataBuffer.getData
  rw [List.getElem?_map]
  by_cases h : i < b.m_Size
  · rw [List.getElem?_range h]
    simp [h]
  · have hnone : (List.range b.m_Size)[i]? = none :=
      List.getElem?_eq_none (by simp; omega)
    simp [hnone, h]

theorem load_eq_getElem? (a : List Int) (i : Nat) (h : i < a.length) :
    a[i]? = some (load a i) := by
  unfold load
  rw [List.getD_eq_getElem?_getD, List.getElem?_eq_getElem h]
  simp

theorem holds_fresh (memory : Nat → Int) : DataBuffer.Holds (DataBuffer.fresh memory) [] := by
  refine ⟨?_, ?_, ?_⟩
  · simp [DataBuffer.fresh]
  · simp [DataBuffer.fresh]
  · simp [DataBuffer.samples, DataBuffer.fresh, DataBuffer.getSize]

theorem holds_append (b : DataBuffer) (vs : List Int) (v : Int) (h : DataBuffer.Holds b vs) :
    DataBuffer.Holds (b.append v) (vs ++ [v]) := by
  obtain ⟨hlen, hsize, hsam⟩ := h
  have hget : ∀ i : Nat, b.samples[i]? = (vs.drop (vs.length - BUFFERSIZE))[i]? := by
    intro i; rw [hsam]
  have hB : BUFFERSIZE = 88 := by decide
  by_cases hlt : b.m_Size < BUFFERSIZE
  · have hn : b.m_Size = vs.length := by omega
    have hbuf : (b.append v).m_Buffer = store b.m_Buffer b.m_Size v := by
      simp [DataBuffer.append, hlt]
    have hsz : (b.append v).m_Size = b.m_Size + 1 := by
      simp [DataBuffer.append, hlt]
    refine ⟨?_, ?_, ?_⟩
    · rw [hbuf, length_store]; exact hlen
    · rw [hsz]; simp; omega
    · apply List.ext_getElem?
      intro i
      rw [samples_getElem?, hsz, hbuf, load_store]
      have hd : (vs ++ [v]).length - BUFFERSIZE = 0 := by simp; omega
      rw [hd, List.drop_zero]
      have hi := hget i
      rw [samples_getElem?] at hi
      have hd2 : vs.length - BUFFERSIZE = 0 := by omega
      rw [hd2, List.drop_zero] at hi
      by_cases h1 : i < b.m_Size
      · have h2 : i < vs.length := by omega
        have h3 : ¬ (i = b.m_Size ∧ b.m_Size < b.m_Buffer.length) := by omega
        rw [if_pos (by omega), if_neg h3, List.getElem?_append_left h2]
        rw [if_pos h1] at hi
        exact hi
      · by_cases h2 : i = b.m_Size
        · have h3 : (i = b.m_Size ∧ b.m_Size < b.m_Buffer.length) := by omega
          rw [if_pos (by omega), if_pos h3]
          have h4 : vs.length ≤ i := by omega
          rw [List.getElem?_append_right h4]
          have : i - vs.length = 0 := by omega
          simp [this]
        · rw [if_neg (by omega)]
          symm
          apply List.getElem?_eq_none
          simp
          omega
  · have hn : b.m_Size = BUFFERSIZE := by omega
    have hvs : BUFFERSIZE ≤ vs.length := by omega
    have hbuf : (b.append v).m_Buffer =
        store (forLoop 1 BUFFERSIZE (fun i buf => store buf (i - 1) (load buf i))
          b.m_Buffer) (BUFFERSIZE - 1) v := by
      simp [DataBuffer.append, hlt]
    have hsz : (b.append v).m_Size = b.m_Size := by
      simp [DataBuffer.append, hlt]
    have hshift := shift_loop_spec b.m_Buffer (BUFFERSIZE - 1) (by omega)
    have e1 : BUFFERSIZE - 1 + 1 = BUFFERSIZE := by omega
    rw [e1] at hshift
    refine ⟨?_, ?_, ?_⟩
    · rw [hbuf, length_store, hshift.1]; exact hlen
    · rw [hsz]; simp; omega
    · apply List.ext_getElem?
      intro i
      rw [samples_getElem?, hsz, hbuf, load_store, hshift.1, hshift.2]
      have hd : (vs ++ [v]).length - BUFFERSIZE = vs.length - BUFFERSIZE + 1 := by
        simp; omega
      rw [hd, List.getElem?_drop]
      have hi := hget (i + 1)
      rw [samples_getElem?, List.getElem?_drop] at hi
      by_cases h1 : i < BUFFERSIZE - 1
      · have h3 : ¬ (i = BUFFERSIZE - 1 ∧ BUFFERSIZE - 1 < b.m_Buffer.length) := by omega
        have h2 : vs.length - BUFFERSIZE + 1 + i < vs.length := by omega
        rw [if_pos (by omega), if_neg h3, if_pos h1, List.getElem?_append_left h2]
        rw [if_pos (by omega)] at hi
        rw [hi]
        congr 1
        omega
      · by_cases h2 : i = BUFFERSIZE - 1
        · have h3 : (i = BUFFERSIZE - 1 ∧ BUFFERSIZE - 1 < b.m_Buffer.length) := by omega
          rw [if_pos (by omega), if_pos h3]
          have h4 : vs.length ≤ vs.length - BUFFERSIZE + 1 + i := by omega
          rw [List.getElem?_append_right h4]
          have : vs.length - BUFFERSIZE + 1 + i - vs.length = 0 := by omega
          simp [this]
        · rw [if_neg (by omega)]
          symm
          apply List.getElem?_eq_none
          simp
          omega

theorem holds_foldl (memory : Nat → Int) (vs : List Int) :
    DataBuffer.Holds (vs.foldl DataBuffer.append (DataBuffer.fresh memory)) vs := by
  induction vs using List.reverseRecOn with
  | nil => exact holds_fresh memory
  | append_singleton xs x ih =>
    rw [List.foldl_append]
    exact holds_append _ xs x ih

/-- C1. FIFO law of `DataBuffer`, whose capacity `BUFFERSIZE` is 264 / 3 = 88:
after appending the values `vs` one by one to a freshly constructed buffer,
`getSize` is `min vs.length 88`, which is at most the capacity, and the slots
`0 .. getSize - 1` of `getData` hold the last `min vs.length 88` values of `vs`
in the order they were appended. On a full buffer `append` keeps the size,
moves the content of slot `j + 1` to slot `j` and puts the new value in the
last slot. -/
theorem DataBuffer_fifo (memory : Nat → Int) (vs : List Int) :
    BUFFERSIZE = 264 / 3 ∧ BUFFERSIZE = 88 ∧
    (vs.foldl DataBuffer.append (DataBuffer.fresh memory)).getSize = min vs.length 88 ∧
    (vs.foldl DataBuffer.append (DataBuffer.fresh memory)).getSize ≤ BUFFERSIZE ∧
    (List.range (vs.foldl DataBuffer.append (DataBuffer.fresh memory)).getSize).map
        (vs.foldl DataBuffer.append (DataBuffer.fresh memory)).getData
      = vs.drop (vs.length - min vs.length 88) ∧
    (88 ≤ vs.length → ∀ v : Int,
      ((vs.foldl DataBuffer.append (DataBuffer.fresh memory)).append v).getSize = 88 ∧
      (∀ j, j < 87 →
        ((vs.foldl DataBuffer.append (DataBuffer.fresh memory)).append v).getData j
          = (vs.foldl DataBuffer.append (DataBuffer.fresh memory)).getData (j + 1)) ∧
      ((vs.foldl DataBuffer.append (DataBuffer.fresh memory)).append v).getData 87 = v) := by
  have hB : BUFFERSIZE = 88 := by decide
  obtain ⟨hlen, hsize, hsam⟩ := holds_foldl memory vs
  refine ⟨by decide, hB, ?_, ?_, ?_, ?_⟩
  · rw [DataBuffer.getSize, hsize, hB]
  · rw [DataBuffer.getSize, hsize]; exact Nat.min_le_right _ _
  · have : vs.length - min vs.length 88 = vs.length - BUFFERSIZE := by omega
    rw [this, ← hsam, DataBuffer.samples]
  · intro hfull v
    have hn : ¬ (vs.foldl DataBuffer.append (DataBuffer.fresh memory)).m_Size
        < BUFFERSIZE := by omega
    have hshift := shift_loop_spec
      (vs.foldl DataBuffer.append (DataBuffer.fresh memory)).m_Buffer (BUFFERSIZE - 1)
      (by omega)
    have e1 : BUFFERSIZE - 1 + 1 = BUFFERSIZE := by omega
    rw [e1] at hshift
    refine ⟨?_, ?_, ?_⟩
    · simp [DataBuffer.getSize, DataBuffer.append, hn]; omega
    · intro j hj
      simp only [DataBuffer.getData, DataBuffer.append, hn, if_false]
      rw [load_store, hshift.2]
      have h3 : ¬ (j = BUFFERSIZE - 1 ∧ BUFFERSIZE - 1 <
        (forLoop 1 BUFFERSIZE (fun i buf => store buf (i - 1) (load buf i))
          (vs.foldl DataBuffer.append (DataBuffer.fresh memory)).m_Buffer).length) := by
        omega
      rw [if_neg h3, if_pos (by omega)]
    · simp only [DataBuffer.getData, DataBuffer.append, hn, if_false]
      rw [load_store, hshift.1]
      have h3 : (87 = BUFFERSIZE - 1 ∧ BUFFERSIZE - 1 <
        (vs.foldl DataBuffer.append (DataBuffer.fresh memory)).m_Buffer.length) := by
        omega
      rw [if_pos h3]

/-! ## DataBuffer: boundaries -/

/-- Invariant of the scan of `getBoundaries` after the cells `0 .. k`. -/
theorem boundaries_loop_spec (a : List Int) (k : Nat) :
    (∀ i, i ≤ k →
      (forLoop 1 (k + 1)
        (fun i (p : Int × Int) =>
          let vmin := if load a i < p.1 then load a i else p.1
          let vmax := if load a i > p.2 then load a i else p.2
          (vmin, vmax))
        (load a 0, load a 0)).1 ≤ load a i ∧
      load a i ≤ (forLoop 1 (k + 1)
        (fun i (p : Int × Int) =>
          let vmin := if load a i < p.1 then load a i else p.1
          let vmax := if load a i > p.2 then load a i else p.2
          (vmin, vmax))
        (load a 0, load a 0)).2) ∧
    (∃ i, i ≤ k ∧ load a i = (forLoop 1 (k + 1)
        (fun i (p : Int × Int) =>
          let vmin := if load a i < p.1 then load a i else p.1
          let vmax := if load a i > p.2 then load a i else p.2
          (vmin, vmax))
        (load a 0, load a 0)).1) ∧
    (∃ i, i ≤ k ∧ load a i = (forLoop 1 (k + 1)
        (fun i (p : Int × Int) =>
          let vmin := if load a i < p.1 then load a i else p.1
          let vmax := if load a i > p.2 then load a i else p.2
          (vmin, vmax))
        (load a 0, load a 0)).2) := by
  induction k with
  | zero =>
    rw [forLoop_empty 1 1 _ _ (le_refl 1)]
    refine ⟨?_, ⟨0, le_refl 0, rfl⟩, ⟨0, le_refl 0, rfl⟩⟩
    intro i hi
    have : i = 0 := by omega
    subst this
    exact ⟨le_refl _, le_refl _⟩
  | succ n ih =>
    rw [forLoop_succ 1 (n + 1) _ _ (by omega)]
    obtain ⟨hall, ⟨imin, himin, hmin⟩, ⟨imax, himax, hmax⟩⟩ := ih
    generalize forLoop 1 (n + 1)
        (fun i (p : Int × Int) =>
          let vmin := if load a i < p.1 then load a i else p.1
          let vmax := if load a i > p.2 then load a i else p.2
          (vmin, vmax))
        (load a 0, load a 0) = p at hall hmin hmax
    refine ⟨?_, ?_, ?_⟩
    · intro i hi
      by_cases hin : i ≤ n
      · have := hall i hin
        constructor
        · show (if load a (n + 1) < p.1 then load a (n + 1) else p.1) ≤ load a i
          split_ifs <;> omega
        · show load a i ≤ (if load a (n + 1) > p.2 then load a (n + 1) else p.2)
          split_ifs <;> omega
      · have hi2 : i = n + 1 := by omega
        subst hi2
        constructor
        · show (if load a (n + 1) < p.1 then load a (n + 1) else p.1) ≤ load a (n + 1)
          split_ifs <;> omega
        · show load a (n + 1) ≤ (if load a (n + 1) > p.2 then load a (n + 1) else p.2)
          split_ifs <;> omega
    · show ∃ i, i ≤ n + 1 ∧ load a i = (if load a (n + 1) < p.1 then load a (n + 1) else p.1)
      by_cases hc : load a (n + 1) < p.1
      · exact ⟨n + 1, le_refl _, by rw [if_pos hc]⟩
      · exact ⟨imin, by omega, by rw [if_neg hc]; exact hmin⟩
    · show ∃ i, i ≤ n + 1 ∧ load a i = (if load a (n + 1) > p.2 then load a (n + 1) else p.2)
      by_cases hc : load a (n + 1) > p.2
      · exact ⟨n + 1, le_refl _, by rw [if_pos hc]⟩
      · exact ⟨imax, by omega, by rw [if_neg hc]; exact hmax⟩

theorem getBoundaries_nonempty (b : DataBuffer) (h : b.m_Size ≠ 0) :
    (∀ i, i < b.m_Size →
      b.getBoundaries.1 ≤ load b.m_Buffer i ∧ load b.m_Buffer i ≤ b.getBoundaries.2) ∧
    (∃ i, i < b.m_Size ∧ load b.m_Buffer i = b.getBoundaries.1) ∧
    (∃ i, i < b.m_Size ∧ load b.m_Buffer i = b.getBoundaries.2) := by
  have hspec := boundaries_loop_spec b.m_Buffer (b.m_Size - 1)
  have e : b.m_Size - 1 + 1 = b.m_Size := by omega
  rw [e] at hspec
  have hb : b.getBoundaries = forLoop 1 b.m_Size
      (fun i (p : Int × Int) =>
        let vmin := if load b.m_Buffer i < p.1 then load b.m_Buffer i else p.1
        let vmax := if load b.m_Buffer i > p.2 then load b.m_Buffer i else p.2
        (vmin, vmax))
      (load b.m_Buffer 0, load b.m_Buffer 0) := by
    simp [DataBuffer.getBoundaries, h]
  rw [hb]
  obtain ⟨hall, ⟨imin, himin, hmin⟩, ⟨imax, himax, hmax⟩⟩ := hspec
  exact ⟨fun i hi => hall i (by omega), ⟨imin, by omega, hmin⟩, ⟨imax, by omega, hmax⟩⟩

theorem getBoundaries_empty (b : DataBuffer) (h : b.m_Size = 0) :
    b.getBoundaries = (INT16_MIN, INT16_MAX) := by
  simp [DataBuffer.getBoundaries, h]

/-- C2. `DataBuffer::getBoundaries` returns the sentinel range
`(INT16_MIN, INT16_MAX) = (-32768, 32767)` when the buffer holds no sample; on
a buffer that holds at least one sample the returned `vmin` and `vmax` satisfy
`vmin <= s <= vmax` for each of the `getSize` stored samples `s`, and each of
`vmin`, `vmax` is one of the stored samples, so that they are the minimum and
the maximum of the stored samples. -/
theorem getBoundaries_spec (b : DataBuffer) :
    (b.getSize = 0 → b.getBoundaries = (-32768, 32767)) ∧
    (b.getSize ≠ 0 →
      (∀ i, i < b.getSize →
        b.getBoundaries.1 ≤ b.getData i ∧ b.getData i ≤ b.getBoundaries.2) ∧
      (∃ i, i < b.getSize ∧ b.getData i = b.getBoundaries.1) ∧
      (∃ i, i < b.getSize ∧ b.getData i = b.getBoundaries.2)) := by
  constructor
  · intro h
    rw [getBoundaries_empty b h]
    rfl
  · intro h
    exact getBoundaries_nonempty b h

/-! ## JudgeQuality -/

/-- C3. `JudgeQuality` is total and returns `Bad` exactly when `co2.co2 > 1000`
or `co2.humidity > 60`, and `Good` otherwise; the verdict is the same for all
VOC and particulate readings, all temperatures and all valid flags. It gives
`Bad` at (co2 = 1001, humidity = 0) and at (co2 = 500, humidity = 61), `Good`
at (co2 = 500, humidity = 40) and at the boundary (co2 = 1000, humidity = 60). -/
theorem JudgeQuality_spec :
    (∀ (voc : VOCData) (co2 : CO2Data) (sps : SPSData),
      (JudgeQuality voc co2 sps = AirQualityLevel.Bad ↔
        (co2.co2 > 1000 ∨ FloatVal.gt co2.humidity (FloatVal.ofInt 60) = true)) ∧
      (JudgeQuality voc co2 sps = AirQualityLevel.Good ↔
        ¬ (co2.co2 > 1000 ∨ FloatVal.gt co2.humidity (FloatVal.ofInt 60) = true))) ∧
    (∀ (voc voc' : VOCData) (sps sps' : SPSData) (c : Nat) (h t t' : FloatVal)
        (v v' : Bool),
      JudgeQuality voc { co2 := c, temperature := t, humidity := h, valid := v } sps
        = JudgeQuality voc' { co2 := c, temperature := t', humidity := h, valid := v' }
            sps') ∧
    (∀ (voc : VOCData) (sps : SPSData) (t : FloatVal) (v : Bool),
      JudgeQuality voc
          { co2 := 1001, temperature := t, humidity := FloatVal.fin 0, valid := v } sps
        = AirQualityLevel.Bad ∧
      JudgeQuality voc
          { co2 := 500, temperature := t, humidity := FloatVal.fin 61, valid := v } sps
        = AirQualityLevel.Bad ∧
      JudgeQuality voc
          { co2 := 500, temperature := t, humidity := FloatVal.fin 40, valid := v } sps
        = AirQualityLevel.Good ∧
      JudgeQuality voc
          { co2 := 1000, temperature := t, humidity := FloatVal.fin 60, valid := v } sps
        = AirQualityLevel.Good) := by
  refine ⟨?_, ?_, ?_⟩
  · intro voc co2 sps
    unfold JudgeQuality
    by_cases h : (co2.co2 > 1000 ∨ FloatVal.gt co2.humidity (FloatVal.ofInt 60) = true)
    · have hb : (decide (co2.co2 > 1000) ||
          FloatVal.gt co2.humidity (FloatVal.ofInt 60)) = true := by
        simpa using h
      simp [hb, h]
    · have hb : ¬ (decide (co2.co2 > 1000) ||
          FloatVal.gt co2.humidity (FloatVal.ofInt 60)) = true := by
        simpa using h
      simp [hb, h]
  · intros
    rfl
  · intro voc sps t v
    refine ⟨?_, ?_, ?_, ?_⟩ <;> simp [JudgeQuality, FloatVal.gt, FloatVal.ofInt] <;> norm_num

/-! ## plot2d -/

theorem wrapInt_eq (ib : Nat) (x : Int) (hib : 1 ≤ ib)
    (h1 : -(2 ^ (ib - 1)) ≤ x) (h2 : x < 2 ^ (ib - 1)) : wrapInt ib x = x := by
  unfold wrapInt
  have hp : (2 : Int) ^ ib = 2 * 2 ^ (ib - 1) := by
    have e : ib = (ib - 1) + 1 := by omega
    conv_lhs => rw [e, pow_succ]
    ring
  rw [hp]
  generalize (2 : Int) ^ (ib - 1) = p at h1 h2 ⊢
  rw [Int.emod_eq_of_lt (by omega) (by omega)]
  omega

theorem forLoop_collect {α : Type} (n : Nat) (f : Nat → α) (init : List α) :
    forLoop 0 n (fun i calls => calls ++ [f i]) init = init ++ (List.range n).map f := by
  induction n with
  | zero => simp [forLoop]
  | succ k ih =>
    rw [forLoop_succ 0 k _ init (Nat.zero_le k), ih, List.range_succ, List.map_append]
    simp

theorem segments_append (l₁ l₂ : List GfxCall) :
    segments (l₁ ++ l₂) = segments l₁ ++ segments l₂ := by
  simp [segments, List.filterMap_append]

theorem segments_drawLines (n : Nat) (g : Nat → ℚ × ℚ × ℚ × ℚ) :
    segments ((List.range n).map
      (fun i => GfxCall.drawLine (g i).1 (g i).2.1 (g i).2.2.1 (g i).2.2.2 Color.EPD_BLACK))
      = (List.range n).map g := by
  induction n with
  | zero => simp [segments]
  | succ k ih =>
    rw [List.range_succ, List.map_append, List.map_append, segments_append, ih]
    simp [segments]

/-- The `drawLine` calls of `plot2d` when `count` is not 1. -/
theorem segments_plot2d (w ib : Nat) (origin_x origin_y : Int) (values : Nat → Int)
    (count : Nat) (y_min y_max : Int) (x_span y_span : Nat) (h : count ≠ 1) :
    segments (plot2d w ib origin_x origin_y values count y_min y_max x_span y_span)
      = (List.range ((count + 2 ^ w - 1) % 2 ^ w)).map
          (loopSegment w ib origin_x origin_y values count y_min y_max x_span y_span) := by
  unfold plot2d
  rw [if_neg h]
  simp only [forLoop_collect, List.nil_append, segments_append]
  have key := segments_drawLines ((count + 2 ^ w - 1) % 2 ^ w)
    (loopSegment w ib origin_x origin_y values count y_min y_max x_span y_span)
  simp only [loopSegment] at key
  rw [key]
  simp [segments]

theorem plot2d_one (w ib : Nat) (origin_x origin_y : Int) (values : Nat → Int)
    (y_min y_max : Int) (x_span y_span : Nat) :
    plot2d w ib origin_x origin_y values 1 y_min y_max x_span y_span = [] := by
  simp [plot2d]

theorem loop_bound_eq (w count : Nat) (h1 : 1 ≤ count) (h2 : count < 2 ^ w) :
    (count + 2 ^ w - 1) % 2 ^ w = count - 1 := by
  have e : count + 2 ^ w - 1 = (count - 1) + 2 ^ w := by omega
  rw [e, Nat.add_mod_right, Nat.mod_eq_of_lt (by omega)]

theorem loop_bound_zero (w : Nat) : (0 + 2 ^ w - 1) % 2 ^ w = 2 ^ w - 1 := by
  have hpos : 0 < 2 ^ w := Nat.pow_pos (by decide)
  rw [Nat.zero_add, Nat.mod_eq_of_lt (by omega)]

theorem segments_drawPlotCells (w ib : Nat) (x y : Int)
    (title unit current_value : String) (history : DataBuffer) (v_min v_max : Int) :
    segments (drawPlotCells w ib x y title unit current_value history v_min v_max)
      = segments (plot2d w ib (x + 1 * GRID_DX - 15) (y - 15) history.getData
          history.getSize (plotRange history v_min v_max).1
          (plotRange history v_min v_max).2 1 1) := by
  unfold drawPlotCells
  simp only [segments_append]
  simp [segments]

/-- The loop body computes the segment of the specification when the spans do
not wrap in `size_t` and the three `int` subtractions do not overflow. -/
theorem loopSegment_eq_spec (w ib : Nat) (origin_x origin_y : Int) (values : Nat → Int)
    (count : Nat) (y_min y_max : Int) (x_span y_span : Nat)
    (hc : 2 ≤ count) (hcw : count < 2 ^ w)
    (hx : x_span * 88 < 2 ^ w) (hys : y_span * 58 < 2 ^ w)
    (hd : wrapInt ib (y_max - y_min) = y_max - y_min) (i : Nat)
    (h0 : wrapInt ib (values i - y_min) = values i - y_min)
    (h1 : wrapInt ib (values (i + 1) - y_min) = values (i + 1) - y_min) :
    loopSegment w ib origin_x origin_y values count y_min y_max x_span y_span i
      = placed origin_x origin_y
          (specSegment ((x_span : ℚ) * 88 - 20) ((y_span : ℚ) * 58 - 12) values count
            y_min y_max i) := by
  have hdx : GRID_DX = 88 := by decide
  have hdy : GRID_DY = 58 := by decide
  unfold loopSegment placed specSegment specY dyDivisor
  rw [loop_bound_eq w count (by omega) hcw, hdx, hdy, Nat.mod_eq_of_lt hx,
    Nat.mod_eq_of_lt hys, hd, h0, h1]
  have hcq : ((count - 1 : Nat) : ℚ) = (count : ℚ) - 1 := by
    rw [Nat.cast_sub (by omega)]; simp
  rw [hcq]
  push_cast
  refine Prod.ext ?_ (Prod.ext ?_ (Prod.ext ?_ ?_)) <;> simp <;> ring

/-- C4. What `plot2d` does for `count <= 1`. For `count = 1` no call at all is
made on the panel. For `count = 0` the guard `count == 1` does not fire, the
loop bound `count - 1` wraps to `2 ^ w - 1` and `drawLine` calls are issued, one
per `i` below the wrapped bound; this is also what `drawPlotCells` does on a
`DataBuffer` that is still empty. -/
theorem plot2d_small_count (w : Nat) (hw : 0 < w) (ib : Nat) (origin_x origin_y : Int)
    (values : Nat → Int) (y_min y_max : Int) (x_span y_span : Nat) :
    plot2d w ib origin_x origin_y values 1 y_min y_max x_span y_span = [] ∧
    segments (plot2d w ib origin_x origin_y values 0 y_min y_max x_span y_span)
      = (List.range (2 ^ w - 1)).map
          (loopSegment w ib origin_x origin_y values 0 y_min y_max x_span y_span) ∧
    segments (plot2d w ib origin_x origin_y values 0 y_min y_max x_span y_span) ≠ [] ∧
    (∀ (memory : Nat → Int) (title unit current_value : String) (v_min v_max : Int),
      segments (drawPlotCells w ib origin_x origin_y title unit current_value
        (DataBuffer.fresh memory) v_min v_max) ≠ []) := by
  have h2 : 2 ^ 1 ≤ 2 ^ w := Nat.pow_le_pow_right (by decide) hw
  have hz : ∀ (ox oy : Int) (vals : Nat → Int) (a b : Int) (xs ys : Nat),
      segments (plot2d w ib ox oy vals 0 a b xs ys)
        = (List.range (2 ^ w - 1)).map (loopSegment w ib ox oy vals 0 a b xs ys) := by
    intro ox oy vals a b xs ys
    rw [segments_plot2d w ib ox oy vals 0 a b xs ys (by decide), loop_bound_zero]
  have hne : ∀ (ox oy : Int) (vals : Nat → Int) (a b : Int) (xs ys : Nat),
      segments (plot2d w ib ox oy vals 0 a b xs ys) ≠ [] := by
    intro ox oy vals a b xs ys hnil
    have hlen := congrArg List.length hnil
    rw [hz] at hlen
    simp at hlen
    omega
  refine ⟨plot2d_one w ib origin_x origin_y values y_min y_max x_span y_span,
    hz _ _ _ _ _ _ _, hne _ _ _ _ _ _ _, ?_⟩
  intro memory title unit current_value v_min v_max
  rw [segments_drawPlotCells]
  exact hne _ _ _ _ _ _ _

theorem plot2d_small_count_witness :
    0 < 16 ∧
    plot2d 16 32 73 0 (DataBuffer.fresh (fun _ => 0)).getData 1 (-32768) 32767 1 1 = [] ∧
    segments (plot2d 16 32 73 0 (DataBuffer.fresh (fun _ => 0)).getData 0 (-32768) 32767
      1 1) ≠ [] :=
  ⟨by decide,
   (plot2d_small_count 16 (by decide) 32 73 0 (DataBuffer.fresh (fun _ => 0)).getData
      (-32768) 32767 1 1).1,
   (plot2d_small_count 16 (by decide) 32 73 0 (DataBuffer.fresh (fun _ => 0)).getData
      (-32768) 32767 1 1).2.2.1⟩

/-! ## drawPlotCells: the plotted range -/

theorem plotRange_covers (history : DataBuffer) (v_min v_max : Int)
    (hne : history.getSize ≠ 0) (i : Nat) (hi : i < history.getSize) :
    (plotRange history v_min v_max).1 ≤ history.getData i ∧
    history.getData i ≤ (plotRange history v_min v_max).2 := by
  have hb := (getBoundaries_nonempty history hne).1 i hi
  unfold plotRange DataBuffer.getData
  simp only []
  constructor
  · exact le_trans (min_le_right _ _) hb.1
  · exact le_trans hb.2 (le_max_right _ _)

theorem specY_range (H : ℚ) (y_min y_max v : Int) (hH : 0 ≤ H) (hy : y_min < y_max)
    (h1 : y_min ≤ v) (h2 : v ≤ y_max) :
    0 ≤ specY H y_min y_max v ∧ specY H y_min y_max v ≤ H := by
  have hd : (0 : ℚ) < (y_max : ℚ) - (y_min : ℚ) := by
    have : (y_min : ℚ) < (y_max : ℚ) := by exact_mod_cast hy
    linarith
  have h1q : (y_min : ℚ) ≤ (v : ℚ) := by exact_mod_cast h1
  have h2q : (v : ℚ) ≤ (y_max : ℚ) := by exact_mod_cast h2
  have hq : 0 ≤ H / ((y_max : ℚ) - (y_min : ℚ)) := div_nonneg hH (le_of_lt hd)
  unfold specY
  constructor
  · have hle : ((v : ℚ) - y_min) * (H / ((y_max : ℚ) - (y_min : ℚ)))
        ≤ ((y_max : ℚ) - y_min) * (H / ((y_max : ℚ) - (y_min : ℚ))) :=
      mul_le_mul_of_nonneg_right (by linarith) hq
    have heq : ((y_max : ℚ) - y_min) * (H / ((y_max : ℚ) - (y_min : ℚ))) = H := by
      field_simp
    linarith
  · have : 0 ≤ ((v : ℚ) - y_min) * (H / ((y_max : ℚ) - (y_min : ℚ))) :=
      mul_nonneg (by linarith) hq
    linarith

/-- C6. In `drawPlotCells` the range passed to `plot2d` is
`t_min = min(v_min, observed min)`, `t_max = max(v_max, observed max)`, the
observed range being the one `getBoundaries` returns. For a history that holds
at least one sample (and at most `BUFFERSIZE`, as every `DataBuffer` does), each
stored sample `s` satisfies `t_min <= s <= t_max`, and when `t_min < t_max` its
vertical coordinate `46 - (s - t_min) * 46 / (t_max - t_min)` in exact
arithmetic, 46 being the plot height of the call, lies in `[0, 46]`. When
`t_max - t_min` does not overflow the `int`, both ends of each segment that
`drawPlotCells` draws lie in that interval too, relative to the origin of the
plot and the top margin. -/
theorem drawPlotCells_range (w : Nat) (hw : 7 ≤ w) (ib : Nat) (x y : Int)
    (title unit current_value : String) (history : DataBuffer) (v_min v_max : Int)
    (hne : history.getSize ≠ 0) (hcap : history.getSize ≤ BUFFERSIZE) :
    plotRange history v_min v_max
      = (min v_min history.getBoundaries.1, max v_max history.getBoundaries.2) ∧
    segments (drawPlotCells w ib x y title unit current_value history v_min v_max)
      = segments (plot2d w ib (x + 1 * GRID_DX - 15) (y - 15) history.getData
          history.getSize (plotRange history v_min v_max).1
          (plotRange history v_min v_max).2 1 1) ∧
    (∀ i, i < history.getSize →
      (plotRange history v_min v_max).1 ≤ history.getData i ∧
      history.getData i ≤ (plotRange history v_min v_max).2) ∧
    ((plotRange history v_min v_max).1 < (plotRange history v_min v_max).2 →
      (∀ i, i < history.getSize →
        (0 : ℚ) ≤ 46 - ((history.getData i : ℚ) - ((plotRange history v_min v_max).1 : ℚ))
            * 46 / (((plotRange history v_min v_max).2 : ℚ)
              - ((plotRange history v_min v_max).1 : ℚ)) ∧
        46 - ((history.getData i : ℚ) - ((plotRange history v_min v_max).1 : ℚ))
            * 46 / (((plotRange history v_min v_max).2 : ℚ)
              - ((plotRange history v_min v_max).1 : ℚ)) ≤ (46 : ℚ)) ∧
      (1 ≤ ib →
        (plotRange history v_min v_max).2 - (plotRange history v_min v_max).1
          < 2 ^ (ib - 1) →
        ∀ s, s ∈ segments
            (drawPlotCells w ib x y title unit current_value history v_min v_max) →
          (0 : ℚ) ≤ s.2.1 - ((y - 15 : Int) : ℚ) - 6 ∧
          s.2.1 - ((y - 15 : Int) : ℚ) - 6 ≤ 46 ∧
          (0 : ℚ) ≤ s.2.2.2 - ((y - 15 : Int) : ℚ) - 6 ∧
          s.2.2.2 - ((y - 15 : Int) : ℚ) - 6 ≤ 46)) := by
  have hB : BUFFERSIZE = 88 := by decide
  have hpow : 2 ^ 7 ≤ 2 ^ w := Nat.pow_le_pow_right (by decide) hw
  have hcov := plotRange_covers history v_min v_max hne
  refine ⟨rfl, segments_drawPlotCells w ib x y title unit current_value history v_min v_max,
    hcov, ?_⟩
  intro hlt
  have hy : ∀ i, i < history.getSize →
      0 ≤ specY 46 (plotRange history v_min v_max).1 (plotRange history v_min v_max).2
        (history.getData i) ∧
      specY 46 (plotRange history v_min v_max).1 (plotRange history v_min v_max).2
        (history.getData i) ≤ 46 := by
    intro i hi
    exact specY_range 46 _ _ _ (by norm_num) hlt (hcov i hi).1 (hcov i hi).2
  constructor
  · intro i hi
    have h := hy i hi
    unfold specY at h
    rw [mul_div_assoc]
    exact h
  · intro hib hfit s hs
    rw [segments_drawPlotCells] at hs
    by_cases hone : history.getSize = 1
    · rw [hone, plot2d_one] at hs
      simp [segments] at hs
    · have hc : 2 ≤ history.getSize := by omega
      have hcw : history.getSize < 2 ^ w := by omega
      rw [segments_plot2d _ _ _ _ _ _ _ _ _ _ hone, loop_bound_eq w _ (by omega) hcw] at hs
      obtain ⟨i, hi, rfl⟩ := List.mem_map.mp hs
      rw [List.mem_range] at hi
      have hp : (0 : Int) < 2 ^ (ib - 1) := by positivity
      have c0 := hcov i (by omega)
      have c1 := hcov (i + 1) (by omega)
      rw [loopSegment_eq_spec w ib _ _ _ _ _ _ 1 1 hc hcw (by omega) (by omega)
        (wrapInt_eq ib _ hib (by omega) hfit) i
        (wrapInt_eq ib _ hib (by omega) (by omega))
        (wrapInt_eq ib _ hib (by omega) (by omega))]
      have h0 := hy i (by omega)
      have h1 := hy (i + 1) (by omega)
      simp only [placed, specSegment]
      have e : ((1 : Nat) : ℚ) * 58 - 12 = 46 := by norm_num
      rw [e]
      refine ⟨?_, ?_, ?_, ?_⟩ <;> linarith [h0.1, h0.2, h1.1, h1.2]

theorem drawPlotCells_range_witness :
    7 ≤ 16 ∧
    (List.foldl DataBuffer.append (DataBuffer.fresh (fun _ => 0)) [400, 1800, 600]).getSize
      ≠ 0 ∧
    plotRange (List.foldl DataBuffer.append (DataBuffer.fresh (fun _ => 0)) [400, 1800, 600])
      400 1500 = (400, 1800) ∧
    (∀ i, i < (List.foldl DataBuffer.append (DataBuffer.fresh (fun _ => 0))
        [400, 1800, 600]).getSize →
      (plotRange (List.foldl DataBuffer.append (DataBuffer.fresh (fun _ => 0))
        [400, 1800, 600]) 400 1500).1
        ≤ (List.foldl DataBuffer.append (DataBuffer.fresh (fun _ => 0))
            [400, 1800, 600]).getData i ∧
      (List.foldl DataBuffer.append (DataBuffer.fresh (fun _ => 0))
            [400, 1800, 600]).getData i
        ≤ (plotRange (List.foldl DataBuffer.append (DataBuffer.fresh (fun _ => 0))
            [400, 1800, 600]) 400 1500).2) :=
  ⟨by decide, by decide, by decide,
   (drawPlotCells_range 16 (by decide) 32 0 15 "CO2" "ppm" "600"
      (List.foldl DataBuffer.append (DataBuffer.fresh (fun _ => 0)) [400, 1800, 600])
      400 1500 (by decide) (by decide)).2.2.1⟩

/-! ## drawPlotCells: the divisor of `dy` -/

theorem GetMeasurement_ready_stream (s : CO2Sensor) :
    (if s.m_MeasureMode = MeasureMode.SingleShot then
      (s.driver Scd4xCall.measureSingleShot).delay 500 else s).m_Sensor.ready
      = s.m_Sensor.ready ∧
    (if s.m_MeasureMode = MeasureMode.SingleShot then
      (s.driver Scd4xCall.measureSingleShot).delay 500 else s).m_Sensor.measurement
      = s.m_Sensor.measurement := by
  by_cases h : s.m_MeasureMode = MeasureMode.SingleShot <;>
    simp [h, CO2Sensor.driver, CO2Sensor.delay, SensirionI2CScd4x.call]

/-- The result of `GetMeasurement` in terms of the next answer of the driver to
`getDataReadyFlag` and to `readMeasurement`. -/
theorem GetMeasurement_data (s : CO2Sensor) :
    s.GetMeasurement.1 =
      if (s.m_Sensor.ready 0).error ≠ 0 then {}
      else if (s.m_Sensor.ready 0).has_data = false then {}
      else
        { co2 := (s.m_Sensor.measurement 0).co2,
          temperature := (s.m_Sensor.measurement 0).temperature,
          humidity := (s.m_Sensor.measurement 0).humidity,
          valid := decide ((s.m_Sensor.measurement 0).error = 0 ∧
            (s.m_Sensor.measurement 0).co2 ≠ 0) } := by
  obtain ⟨hr, hm⟩ := GetMeasurement_ready_stream s
  unfold CO2Sensor.GetMeasurement
  simp only [SensirionI2CScd4x.getDataReadyFlag, SensirionI2CScd4x.readMeasurement, hr, hm]
  by_cases h1 : (s.m_Sensor.ready 0).error = 0
  · by_cases h2 : (s.m_Sensor.ready 0).has_data = true
    · by_cases h3 : (s.m_Sensor.measurement 0).error = 0 ∧
          (s.m_Sensor.measurement 0).co2 ≠ 0
      · simp [h1, h2, h3]
      · simp [h1, h2, h3]
    · simp [h1, h2]
  · simp [h1]

/-- The sensor after `GetMeasurement`: the mode is kept, one answer of the
ready stream is used up, and one of the measurement stream when the read was
reached. -/
theorem GetMeasurement_state (s : CO2Sensor) :
    s.GetMeasurement.2.m_MeasureMode = s.m_MeasureMode ∧
    s.GetMeasurement.2.m_Sensor.ready = (fun k => s.m_Sensor.ready (k + 1)) ∧
    s.GetMeasurement.2.m_Sensor.measurement =
      if (s.m_Sensor.ready 0).error = 0 ∧ (s.m_Sensor.ready 0).has_data = true then
        (fun k => s.m_Sensor.measurement (k + 1))
      else s.m_Sensor.measurement := by
  unfold CO2Sensor.GetMeasurement
  by_cases hm : s.m_MeasureMode = MeasureMode.SingleShot <;>
  by_cases h1 : (s.m_Sensor.ready 0).error = 0 <;>
  by_cases h2 : (s.m_Sensor.ready 0).has_data = true <;>
  by_cases h3 : (s.m_Sensor.measurement 0).error = 0 ∧
      (s.m_Sensor.measurement 0).co2 ≠ 0 <;>
  simp [hm, h1, h2, h3, SensirionI2CScd4x.getDataReadyFlag,
    SensirionI2CScd4x.readMeasurement, CO2Sensor.driver, CO2Sensor.delay,
    SensirionI2CScd4x.call]

/-- C5. `CO2Sensor::GetMeasurement` is a total function returning a `CO2Data`,
whose `valid` flag is true exactly when `getDataReadyFlag` returns no error and
reports data ready and `readMeasurement` returns no error and yields
`co2 != 0`; the `co2`, `temperature` and `humidity` fields are then the values
the driver read. In `SingleShot` mode, three consecutive calls on a driver that
reports not ready, not ready, then ready with (co2 = 450, temperature = 21.3,
humidity = 45.0) return invalid, invalid, then `valid = true` with `co2 = 450`. -/
theorem GetMeasurement_valid_iff (s : CO2Sensor) :
    (s.GetMeasurement.1.valid = true ↔
      ((s.m_Sensor.ready 0).error = 0 ∧ (s.m_Sensor.ready 0).has_data = true ∧
       (s.m_Sensor.measurement 0).error = 0 ∧ (s.m_Sensor.measurement 0).co2 ≠ 0)) ∧
    (s.GetMeasurement.1.valid = true →
      s.GetMeasurement.1.co2 = (s.m_Sensor.measurement 0).co2 ∧
      s.GetMeasurement.1.temperature = (s.m_Sensor.measurement 0).temperature ∧
      s.GetMeasurement.1.humidity = (s.m_Sensor.measurement 0).humidity) ∧
    (s.m_MeasureMode = MeasureMode.SingleShot →
      (s.m_Sensor.ready 0).error = 0 → (s.m_Sensor.ready 0).has_data = false →
      (s.m_Sensor.ready 1).error = 0 → (s.m_Sensor.ready 1).has_data = false →
      (s.m_Sensor.ready 2).error = 0 → (s.m_Sensor.ready 2).has_data = true →
      (s.m_Sensor.measurement 0).error = 0 → (s.m_Sensor.measurement 0).co2 = 450 →
      (s.m_Sensor.measurement 0).temperature = FloatVal.fin (213 / 10) →
      (s.m_Sensor.measurement 0).humidity = FloatVal.fin 45 →
      s.GetMeasurement.1.valid = false ∧
      s.GetMeasurement.2.GetMeasurement.1.valid = false ∧
      s.GetMeasurement.2.GetMeasurement.2.GetMeasurement.1
        = { co2 := 450, temperature := FloatVal.fin (213 / 10),
            humidity := FloatVal.fin 45, valid := true }) := by
  refine ⟨?_, ?_, ?_⟩
  · rw [GetMeasurement_data]
    by_cases h1 : (s.m_Sensor.ready 0).error = 0
    · by_cases h2 : (s.m_Sensor.ready 0).has_data = true
      · simp [h1, h2]
      · simp [h1, h2]
    · simp [h1]
  · rw [GetMeasurement_data]
    by_cases h1 : (s.m_Sensor.ready 0).error = 0
    · by_cases h2 : (s.m_Sensor.ready 0).has_data = true
      · simp [h1, h2]
      · simp [h1, h2]
    · simp [h1]
  · intro _ e0 d0 e1 d1 e2 d2 me mc mt mh
    obtain ⟨_, hr1, hm1⟩ := GetMeasurement_state s
    obtain ⟨_, hr2, hm2⟩ := GetMeasurement_state s.GetMeasurement.2
    have hm1' : s.GetMeasurement.2.m_Sensor.measurement = s.m_Sensor.measurement := by
      rw [hm1]; simp [d0]
    have hm2' : s.GetMeasurement.2.GetMeasurement.2.m_Sensor.measurement
        = s.m_Sensor.measurement := by
      rw [hm2, hr1]; simp [d1, hm1']
    refine ⟨?_, ?_, ?_⟩
    · rw [GetMeasurement_data]; simp [e0, d0]
    · rw [GetMeasurement_data, hr1]; simp [e1, d1]
    · rw [GetMeasurement_data, hr2, hr1, hm2']; simp [e2, d2, me, mc, mt, mh]

theorem GetMeasurement_valid_iff_witness :
    scenarioSensor.GetMeasurement.1.valid = false ∧
    scenarioSensor.GetMeasurement.2.GetMeasurement.1.valid = false ∧
    scenarioSensor.GetMeasurement.2.GetMeasurement.2.GetMeasurement.1
      = { co2 := 450, temperature := FloatVal.fin (213 / 10),
          humidity := FloatVal.fin 45, valid := true } :=
  (GetMeasurement_valid_iff scenarioSensor).2.2 rfl rfl rfl rfl rfl rfl rfl rfl rfl rfl rfl

/-- C8. With the driver as a recorded sequence of calls: on a sensor in
`NormalPeriodic` mode `onSleep` issues `stopPeriodicMeasurement` and then
`powerDown`, and a following `onResume` issues `wakeUp` and then the whole
`StartMeasurement` sequence, in which `setSensorAltitude(settings.altitude)` and
`setTemperatureOffset(settings.temperature_offset)` come after `wakeUp` and
before `startPeriodicMeasurement`. In every mode `StartMeasurement` issues
`begin`, `stopPeriodicMeasurement` and the two settings, followed by
`startLowPowerPeriodicMeasurement` in `LowPowerPeriodic` mode, by
`startPeriodicMeasurement` in `NormalPeriodic` mode and by nothing in
`SingleShot` mode. -/
theorem CO2Sensor_call_order (s : CO2Sensor) :
    (s.m_MeasureMode = MeasureMode.NormalPeriodic →
      s.onSleep.m_Sensor.calls = s.m_Sensor.calls ++
        [Scd4xCall.stopPeriodicMeasurement, Scd4xCall.powerDown] ∧
      s.onSleep.onResume.m_Sensor.calls = s.onSleep.m_Sensor.calls ++
        [Scd4xCall.wakeUp, Scd4xCall.begin, Scd4xCall.stopPeriodicMeasurement,
         Scd4xCall.setSensorAltitude s.m_Settings.altitude,
         Scd4xCall.setTemperatureOffset s.m_Settings.temperature_offset,
         Scd4xCall.startPeriodicMeasurement]) ∧
    s.StartMeasurement.m_Sensor.calls = s.m_Sensor.calls ++
      [Scd4xCall.begin, Scd4xCall.stopPeriodicMeasurement,
       Scd4xCall.setSensorAltitude s.m_Settings.altitude,
       Scd4xCall.setTemperatureOffset s.m_Settings.temperature_offset] ++
      (match s.m_MeasureMode with
        | MeasureMode.SingleShot => []
        | MeasureMode.LowPowerPeriodic => [Scd4xCall.startLowPowerPeriodicMeasurement]
        | MeasureMode.NormalPeriodic => [Scd4xCall.startPeriodicMeasurement]) ∧
    ((Scd4xCall.startPeriodicMeasurement ∈
        (s.StartMeasurement.m_Sensor.calls.drop s.m_Sensor.calls.length) ∨
      Scd4xCall.startLowPowerPeriodicMeasurement ∈
        (s.StartMeasurement.m_Sensor.calls.drop s.m_Sensor.calls.length)) ↔
      s.m_MeasureMode ≠ MeasureMode.SingleShot) := by
  have hstart : s.StartMeasurement.m_Sensor.calls = s.m_Sensor.calls ++
      [Scd4xCall.begin, Scd4xCall.stopPeriodicMeasurement,
       Scd4xCall.setSensorAltitude s.m_Settings.altitude,
       Scd4xCall.setTemperatureOffset s.m_Settings.temperature_offset] ++
      (match s.m_MeasureMode with
        | MeasureMode.SingleShot => []
        | MeasureMode.LowPowerPeriodic => [Scd4xCall.startLowPowerPeriodicMeasurement]
        | MeasureMode.NormalPeriodic => [Scd4xCall.startPeriodicMeasurement]) := by
    cases hm : s.m_MeasureMode <;>
      simp [CO2Sensor.StartMeasurement, CO2Sensor.StopMeasurement, CO2Sensor.driver,
        CO2Sensor.delay, SensirionI2CScd4x.call, hm]
  refine ⟨?_, hstart, ?_⟩
  · intro hm
    simp [CO2Sensor.onSleep, CO2Sensor.onResume, CO2Sensor.StartMeasurement,
      CO2Sensor.StopMeasurement, CO2Sensor.driver, CO2Sensor.delay,
      SensirionI2CScd4x.call, hm]
  · rw [hstart, List.append_assoc, List.drop_left]
    cases hm : s.m_MeasureMode <;> simp

/-! ## Invalid readings -/

/-- C9. What a reading with `valid == false` holds. From `SPSSensor`
every field is 0. From `VOCSensor`, `tvoc` and `eco2` are 0; the two baselines
are 0 when `IAQmeasure` failed and otherwise hold what `getIAQBaseline` left in
its outputs. From `CO2Sensor` every field is 0 when `getDataReadyFlag` failed
or reported no data; otherwise `readMeasurement` failed or gave `co2 = 0`, and
`co2`, `temperature` and `humidity` hold what `readMeasurement` left in its
outputs. -/
theorem invalid_reading_fields :
    (∀ d : Sps30, (SPSSensor.GetMeasurement d).1.valid = false →
      (SPSSensor.GetMeasurement d).1
        = { pm1 := FloatVal.fin 0, pm25 := FloatVal.fin 0, pm4 := FloatVal.fin 0,
            pm10 := FloatVal.fin 0, valid := false }) ∧
    (∀ d : Adafruit_SGP30, (VOCSensor.GetMeasurement d).1.valid = false →
      (VOCSensor.GetMeasurement d).1.tvoc = 0 ∧ (VOCSensor.GetMeasurement d).1.eco2 = 0 ∧
      ((d.iaq 0).1 = false →
        (VOCSensor.GetMeasurement d).1
          = { tvoc := 0, tvoc_baseline := 0, eco2 := 0, eco2_baseline := 0,
              valid := false }) ∧
      ((d.iaq 0).1 = true →
        (d.baseline 0).1 = false ∧
        (VOCSensor.GetMeasurement d).1.eco2_baseline = (d.baseline 0).2.1 ∧
        (VOCSensor.GetMeasurement d).1.tvoc_baseline = (d.baseline 0).2.2)) ∧
    (∀ s : CO2Sensor, s.GetMeasurement.1.valid = false →
      (((s.m_Sensor.ready 0).error ≠ 0 ∨ (s.m_Sensor.ready 0).has_data = false) →
        s.GetMeasurement.1
          = { co2 := 0, temperature := FloatVal.fin 0, humidity := FloatVal.fin 0,
              valid := false }) ∧
      (((s.m_Sensor.ready 0).error = 0 ∧ (s.m_Sensor.ready 0).has_data = true) →
        ((s.m_Sensor.measurement 0).error ≠ 0 ∨ (s.m_Sensor.measurement 0).co2 = 0) ∧
        s.GetMeasurement.1.co2 = (s.m_Sensor.measurement 0).co2 ∧
        s.GetMeasurement.1.temperature = (s.m_Sensor.measurement 0).temperature ∧
        s.GetMeasurement.1.humidity = (s.m_Sensor.measurement 0).humidity)) := by
  refine ⟨?_, ?_, ?_⟩
  · intro d
    unfold SPSSensor.GetMeasurement
    by_cases h1 : (d.ready 0).1 < 0
    · simp [h1, FloatVal.zero]
    · by_cases h2 : (d.ready 0).2 = 0
      · simp [h1, h2, FloatVal.zero]
      · by_cases h3 : (d.measurement 0).1 < 0
        · simp [h1, h2, h3, FloatVal.zero]
        · simp [h1, h2, h3]
  · intro d
    unfold VOCSensor.GetMeasurement
    by_cases h1 : (d.iaq 0).1 = true
    · by_cases h2 : (d.baseline 0).1 = true
      · simp [h1, h2]
      · simp [h1, h2]
    · simp [h1]
  · intro s
    rw [GetMeasurement_data]
    by_cases h1 : (s.m_Sensor.ready 0).error = 0
    · by_cases h2 : (s.m_Sensor.ready 0).has_data = true
      · simp [h1, h2]
        intro h
        by_cases h3 : (s.m_Sensor.measurement 0).error = 0
        · right; exact h h3
        · left; exact h3
      · simp [h1, h2, FloatVal.zero]
    · simp [h1, FloatVal.zero]

/-- C9, as stated, fails: when the driver reports data ready and the read gives
`co2 = 0` with a temperature of 21.3 and a humidity of 45.0, `GetMeasurement`
returns `valid == false` together with that temperature and humidity. -/
theorem invalid_reading_counterexample :
    zeroCo2Sensor.GetMeasurement.1.valid = false ∧
    zeroCo2Sensor.GetMeasurement.1.temperature = FloatVal.fin (213 / 10) ∧
    zeroCo2Sensor.GetMeasurement.1.humidity = FloatVal.fin 45 ∧
    zeroCo2Sensor.GetMeasurement.1.temperature ≠ FloatVal.fin 0 ∧
    zeroCo2Sensor.GetMeasurement.1.humidity ≠ FloatVal.fin 0 := by
  rw [GetMeasurement_data]
  simp [zeroCo2Sensor]

end AirQuality
